import Mathlib

/-!
Shallow embedding of the schedulum `schedules` app.

Dates are modelled as Python `date.toordinal()` values (`Int`): day 1 is
0001-01-01 of the proleptic Gregorian calendar, which is a Monday, so
Python's `date.weekday()` (Monday = 0 .. Sunday = 6) is `(d - 1) % 7`.

The external relational store is modelled by passing the lists of persisted
rows explicitly; `objects.filter(...).first()` becomes `List.find?` and
`objects.filter(...)` becomes `List.filter`, both respecting insertion
order. `ValidationError` payloads are modelled as the list of message
strings the source raises.
-/

namespace Schedulum

/-! ## Proleptic Gregorian calendar helpers (mirroring Python `datetime`) -/

/-- Leap-year predicate of the proleptic Gregorian calendar. -/
def isLeap (y : Int) : Bool := y % 4 == 0 && (y % 100 != 0 || y % 400 == 0)

/-- Number of days of month `m` (1..12) in year `y`. -/
def daysInMonth (y : Int) (m : Nat) : Int :=
  match m with
  | 1 => 31
  | 2 => if isLeap y then 29 else 28
  | 3 => 31
  | 4 => 30
  | 5 => 31
  | 6 => 30
  | 7 => 31
  | 8 => 31
  | 9 => 30
  | 10 => 31
  | 11 => 30
  | 12 => 31
  | _ => 0

/-- Number of days in year `y` that precede the first day of month `m`. -/
def daysBeforeMonth (y : Int) (m : Nat) : Int :=
  ((List.range' 1 (m - 1)).map (daysInMonth y)).sum

/-- Python `date(y, m, d).toordinal()`. -/
def toOrdinal (y : Int) (m d : Nat) : Int :=
  365 * (y - 1) + (y - 1) / 4 - (y - 1) / 100 + (y - 1) / 400
    + daysBeforeMonth y m + d

/-- Calendar year containing ordinal day `n` (inverse of `toOrdinal` on the
    year component), by the standard 400/100/4/1-year cycle decomposition. -/
def yearOf (n : Int) : Int :=
  let n0 := n - 1
  let q400 := n0 / 146097
  let r400 := n0 % 146097
  let q100 := min (r400 / 36524) 3
  let r100 := r400 - 36524 * q100
  let q4 := r100 / 1461
  let r4 := r100 % 1461
  let q1 := min (r4 / 365) 3
  400 * q400 + 100 * q100 + 4 * q4 + q1 + 1

/-- Python `date.fromordinal(d).weekday()`: Monday = 0 .. Sunday = 6. -/
def pyWeekday (d : Int) : Int := (d - 1) % 7

/-! ## Data model (rows of the persisted store) -/

/-- Row of the Year model: attribute `year`. -/
structure Year where
  year : Int
deriving DecidableEq

/-- Row of the Month model: inclusive `[start, end]` date interval. -/
structure Month where
  start : Int
  end_ : Int
deriving DecidableEq

/-- Row of the Week model: primary key and inclusive `[start, end]` interval. -/
structure Week where
  id : Nat
  start : Int
  end_ : Int
deriving DecidableEq

/-- Row of the Schedule model: primary key, date, author (user pk), the
    derived `week` foreign key (pk of a Week row, `none` when NULL) and the
    optional repetition fields. -/
structure Schedule where
  id : Nat
  date : Int
  author : Nat
  week : Option Nat
  repetition_rate : Option Nat
  repetition_count : Option Nat
deriving DecidableEq

/-- Payload of a Django `ValidationError`: the list of message strings. -/
abbrev ValidationError := List String

/-- Decidable equality of validation outcomes, so that concrete runs of the
    validators can be checked by `decide`. -/
instance {α β : Type} [DecidableEq α] [DecidableEq β] :
    DecidableEq (Except α β) := fun a b =>
  match a, b with
  | .error x, .error y =>
    if h : x = y then .isTrue (by rw [h]) else .isFalse (by simp [h])
  | .ok x, .ok y =>
    if h : x = y then .isTrue (by rw [h]) else .isFalse (by simp [h])
  | .error _, .ok _ => .isFalse (by simp)
  | .ok _, .error _ => .isFalse (by simp)

/-! ## Error message constants (from the source) -/

/-- Message of `ERROR_HIGHER_OBJ_SAMPLE` formatted with the verbose name of
    the missing parent model (the `MissingParent` error of the spec). -/
def errorHigherObj (field : String) : String :=
  "Необходимо изначально создать \"" ++ field ++ "\"."

/-- Modelled from the spec: human-readable verbose name of the Year model
    (models.py is not under src/; only the name string is modelled, per the
    spec's "human-readable name of the expected parent type"). -/
def yearVerbose : String := "Year"

/-- Modelled from the spec: human-readable verbose name of the Month model
    (models.py is not under src/). -/
def monthVerbose : String := "Month"

/-- Modelled from the spec: verbose names of the `start` and `end` fields
    (models.py is not under src/); used to name colliding boundaries. -/
def startVerbose : String := "start"

/-- Modelled from the spec: verbose name of the `end` field. -/
def endVerbose : String := "end"

/-- Message raised by `MonthMixin.validate_len_interval` when the day count
    is not divisible by 7 (`WrongMonthLength` in the spec taxonomy). -/
def monthWeeksLenMsg : String :=
  "Все недели в указанном интервале должны содержать 7 дней."

/-- Message raised by `MonthMixin.validate_len_interval` when the quotient
    is outside 4..5 (`WrongMonthLength` in the spec taxonomy). -/
def monthCountWeeksMsg : String :=
  "Интервал должен содержать 4 или 5 недель."

/-- Message of `validate_incorrect_interval` (`InvalidInterval`). -/
def intervalOrderMsg : String :=
  "Конец интервала должен быть позже его начала."

/-- Message of `validate_exist_interval` formatted with the colliding
    boundary's verbose name (`OverlappingInterval`). -/
def existIntervalMsg (field : String) : String :=
  "Значение \"" ++ field ++ "\" попадает в другой интервал."

/-- Message of `validate_empty_repetition` (`IncompleteRepetition`). -/
def emptyRepetitionMsg : String :=
  "При назначении повторения должны быть указаны количество и частота."

/-- Message of `validate_exist_schedule` (`ScheduleCollision`). -/
def scheduleCollisionMsg : String :=
  "Ваше расписание попадает на день другого расписания. Или повтор совпадает с другим расписанием."

/-- Message of `validate_exist_weeks` (`NoSuchWeek`). -/
def notExistWeeksMsg : String :=
  "Вы пытаетесь добавить или повторить расписание на несуществующую неделю."

/-- Message of `validate_sunday` (`NonSchoolDay`). -/
def sundayMsg : String := "Воскресенье неучебный день."

/-- Message of `WeekMixin.validate_len_interval` (`WrongWeekLength`). -/
def weekLenMsg : String := "Неделя должна содержать 7 дней."

/-- Message of `correct_start` for a date before the configured current
    month (`PastDateRejected`). -/
def pastMonthMsg : String := "Прошедший месяц не доступен для выбора."

/-- Message `INVALID_PAST_ERROR` of validators.py (non-instructional
    period). -/
def invalidPastMsg : String := "Август и Июль неучебные месяцы."

/-! ## MonthMixin (mixins.py lines 27-62) -/

namespace MonthMixin

/-- Source `TrueDiffInterval.get_true_diff`: inclusive day count of the interval. -/
def get_true_diff (m : Month) : Int := m.end_ - m.start + 1

/-- Source `MonthMixin.get_average_date`: `self.start + timedelta(days=15)`. -/
def get_average_date (m : Month) : Int := m.start + 15

/-- Source `MonthMixin.get_related_obj`: first Year row whose `year` equals the
    calendar year of the month's average date. -/
def get_related_obj (m : Month) (years : List Year) : Option Year :=
  years.find? (fun y => decide (y.year = yearOf (get_average_date m)))

/-- Source `MonthMixin.validate_related_obj`: error when no matching Year exists. -/
def validate_related_obj (m : Month) (years : List Year) :
    Except ValidationError Unit :=
  match get_related_obj m years with
  | none => .error [errorHigherObj yearVerbose]
  | some _ => .ok ()

/-- Source `MonthMixin.validate_len_interval`: day count divisible by 7 with the
    week count (floor quotient) in 4..5. -/
def validate_len_interval (m : Month) : Except ValidationError Unit :=
  let true_diff := get_true_diff m
  let count_weeks := true_diff / 7
  if true_diff % 7 ≠ 0 then .error [monthWeeksLenMsg]
  else if count_weeks < 4 ∨ count_weeks > 5 then .error [monthCountWeeksMsg]
  else .ok ()

end MonthMixin

/-! ## ValidationMonthAndWeekIntervalMixin (mixins.py lines 65-98)

The mixin is generic over the model (Month or Week): it only reads the
candidate's `start`/`end` fields and queries same-model siblings, so it is
embedded over a bare interval type. -/

/-- Candidate `start`/`end` pair handled by the shared interval mixin. -/
structure Interval where
  start : Int
  end_ : Int
deriving DecidableEq

/-- Source `validate_incorrect_interval`: `start < end` must hold. -/
def validate_incorrect_interval (self : Interval) : Except ValidationError Unit :=
  if self.start ≥ self.end_ then .error [intervalOrderMsg] else .ok ()

/-- Source `validate_exist_interval`: first sibling whose open interval strictly
    contains the candidate's `start` (resp. `end`); on any hit, error with
    one message per hit boundary, `start` first. -/
def validate_exist_interval (self : Interval) (siblings : List Interval) :
    Except ValidationError Unit :=
  let start_obj := siblings.find?
    (fun o => decide (o.start < self.start ∧ self.start < o.end_))
  let end_obj := siblings.find?
    (fun o => decide (o.start < self.end_ ∧ self.end_ < o.end_))
  if start_obj.isSome ∨ end_obj.isSome then
    .error ((if start_obj.isSome then [existIntervalMsg startVerbose] else [])
         ++ (if end_obj.isSome then [existIntervalMsg endVerbose] else []))
  else .ok ()

/-! ## ScheduleMixin (mixins.py lines 101-168) -/

namespace ScheduleMixin

/-- Python truthiness of an optional integer field: `None` and `0` are
    falsy, any other value is truthy. -/
def truthy : Option Nat → Bool
  | none => false
  | some n => n != 0

/-- Source `ScheduleMixin.get_related_obj`: first Week row containing the date
    inclusively (`start__lte=date, end__gte=date`). -/
def get_related_obj (weeks : List Week) (date : Int) : Option Week :=
  weeks.find? (fun w => decide (w.start ≤ date ∧ date ≤ w.end_))

/-- Source `ScheduleMixin.get_related_week_objects`: the week lookups for the
    repeated dates (`date + 7*rate*k`, `k = 1..count`, only when both
    repetition fields are truthy) followed by the base date's lookup. -/
def get_related_week_objects (self : Schedule) (weeks : List Week) :
    List (Option Week) :=
  let week_objects :=
    if truthy self.repetition_rate && truthy self.repetition_count then
      (List.range' 1 (self.repetition_count.getD 0)).map
        (fun (rep : Nat) => get_related_obj weeks
          (self.date + 7 * (self.repetition_rate.getD 0 : Int) * (rep : Int)))
    else []
  week_objects ++ [get_related_obj weeks self.date]

/-- Source `ScheduleMixin.validate_empty_repetition`: error when some but not all
    of the repetition fields are truthy. -/
def validate_empty_repetition (self : Schedule) : Except ValidationError Unit :=
  let repetition_list := [self.repetition_rate, self.repetition_count]
  if repetition_list.any truthy && !repetition_list.all truthy then
    .error [emptyRepetitionMsg]
  else .ok ()

/-- Django `filter(week=week_obj)` semantics on the `week` foreign key:
    comparison by the Week row's primary key, `None` matching NULL. -/
def weekFieldMatches (w : Option Nat) (week_obj : Option Week) : Bool :=
  match week_obj with
  | none => w == none
  | some wk => w == some wk.id

/-- Django model `==` against an optional row: equal when the other side is
    a row of the same model with the same primary key. -/
def eqByPk (s : Schedule) (o : Option Schedule) : Bool :=
  match o with
  | none => false
  | some t => s.id == t.id

/-- Source `ScheduleMixin.validate_exist_schedule`: looks up `current_schedule` as
    the first row with the candidate's `(date, author)`, then errors when
    some resolved week holds a same-author row with the candidate's weekday
    that is not `current_schedule`. -/
def validate_exist_schedule (self : Schedule) (schedules : List Schedule)
    (weeks : List Week) : Except ValidationError Unit :=
  let current_schedule := schedules.find?
    (fun s => decide (s.date = self.date ∧ s.author = self.author))
  if (get_related_week_objects self weeks).any (fun week_obj =>
      (schedules.filter (fun s =>
          decide (s.author = self.author) && weekFieldMatches s.week week_obj)).any
        (fun schedule =>
          decide (pyWeekday schedule.date = pyWeekday self.date)
            && !eqByPk schedule current_schedule))
  then .error [scheduleCollisionMsg]
  else .ok ()

/-- Source `ScheduleMixin.validate_exist_weeks`: error when some resolved week
    lookup returned no row (`None in week_objs`). -/
def validate_exist_weeks (self : Schedule) (weeks : List Week) :
    Except ValidationError Unit :=
  if none ∈ get_related_week_objects self weeks then
    .error [notExistWeeksMsg]
  else .ok ()

/-- Source `ScheduleMixin.validate_sunday`: the date must not be a Sunday. -/
def validate_sunday (self : Schedule) : Except ValidationError Unit :=
  if pyWeekday self.date = 6 then .error [sundayMsg] else .ok ()

end ScheduleMixin

/-! ## WeekMixin (mixins.py lines 171-198) -/

namespace WeekMixin

/-- Source `TrueDiffInterval.get_true_diff` for a Week row. -/
def get_true_diff (w : Week) : Int := w.end_ - w.start + 1

/-- Source `WeekMixin.get_related_obj`: first Month row whose interval contains
    the week's `start` inclusively. -/
def get_related_obj (w : Week) (months : List Month) : Option Month :=
  months.find? (fun m => decide (m.start ≤ w.start ∧ w.start ≤ m.end_))

/-- Source `WeekMixin.validate_related_obj`: error when no containing Month
    exists. -/
def validate_related_obj (w : Week) (months : List Month) :
    Except ValidationError Unit :=
  match get_related_obj w months with
  | none => .error [errorHigherObj monthVerbose]
  | some _ => .ok ()

/-- Source `WeekMixin.validate_len_interval`: inclusive day count must be 7. -/
def validate_len_interval (w : Week) : Except ValidationError Unit :=
  if get_true_diff w ≠ 7 then .error [weekLenMsg] else .ok ()

end WeekMixin

/-! ## validators.py -/

/-- Injected configuration consumed by `correct_start`: the current
    month/year cutoff and the two exclusive non-instructional windows. -/
structure StartDateConfig where
  CURRENT_MONTH : Nat
  CURRENT_YEAR : Int
  CURRENT_JULY : Int
  CURRENT_AUGUST : Int
  NEXT_JULY : Int
  NEXT_AUGUST : Int

/-- Source `validators.correct_start`: reject dates before the first day of the
    configured current month, then dates strictly inside either
    non-instructional window; otherwise return the date unchanged. -/
def correct_start (cfg : StartDateConfig) (date : Int) :
    Except ValidationError Int :=
  let correct_month := toOrdinal cfg.CURRENT_YEAR cfg.CURRENT_MONTH 1
  if date < correct_month then .error [pastMonthMsg]
  else if (cfg.CURRENT_JULY < date ∧ date < cfg.CURRENT_AUGUST)
       ∨ (cfg.NEXT_JULY < date ∧ date < cfg.NEXT_AUGUST) then
    .error [invalidPastMsg]
  else .ok date

/-! ## views.py: ScheduleChangeMixin.get_object

Python's `datetime.strptime(date_str, '%Y-%m-%d')` compiles `%Y` to exactly
four digits and `%m`/`%d` to one or two digits within 1..12 resp. 1..31,
separated by literal dashes and matching the whole string; constructing the
date then rejects a day beyond the month's length. A failed parse raises
`ValueError`, which `get_object` does not catch. String splitting is
written by structural recursion over the character list so that concrete
inputs evaluate definitionally. -/

/-- Split a character list on the dash character (like `str.split('-')`). -/
def splitDashes (cs : List Char) : List (List Char) :=
  match cs with
  | [] => [[]]
  | c :: rest =>
    let r := splitDashes rest
    if c = '-' then [] :: r
    else
      match r with
      | [] => [[c]]
      | h :: t => (c :: h) :: t

/-- Numeric value of a nonempty all-digit character list, else `none`. -/
def digitVal? (cs : List Char) : Option Nat :=
  if cs = [] then none
  else if cs.all (fun c => c.isDigit) then
    some (cs.foldl (fun a c => 10 * a + (c.toNat - 48)) 0)
  else none

/-- Python `datetime.strptime(s, '%Y-%m-%d').date().toordinal()`, or `none`
    when strptime or the date constructor raises `ValueError`. -/
def pyStrptimeYMD (s : String) : Option Int :=
  match splitDashes s.toList with
  | [ys, ms, ds] =>
    match digitVal? ys, digitVal? ms, digitVal? ds with
    | some y, some m, some d =>
      if ys.length = 4 ∧ 1 ≤ y
         ∧ (ms.length = 1 ∨ ms.length = 2) ∧ 1 ≤ m ∧ m ≤ 12
         ∧ (ds.length = 1 ∨ ds.length = 2) ∧ 1 ≤ d ∧ d ≤ 31
         ∧ (d : Int) ≤ daysInMonth (y : Int) m
      then some (toOrdinal (y : Int) m d)
      else none
    | _, _, _ => none
  | _ => none

/-- Outcome of `ScheduleChangeMixin.get_object` as seen by the framework:
    a resolved row, an `Http404`, or an exception no code catches. -/
inductive GetObjectResult where
  | ok (s : Schedule)
  | notFound
  | uncaughtValueError
deriving DecidableEq

/-- Source `ScheduleChangeMixin.get_object`: parse the URL date segment with
    strptime (an uncaught `ValueError` on failure), then
    `get_object_or_404(Schedule, date=date, author=self.user)`. -/
def get_object (date_str : String) (user : Nat)
    (schedules : List Schedule) : GetObjectResult :=
  match pyStrptimeYMD date_str with
  | none => .uncaughtValueError
  | some date =>
    match schedules.find? (fun s => decide (s.date = date ∧ s.author = user)) with
    | none => .notFound
    | some obj => .ok obj

/-! ## Spec-side definitions

These follow the spec's words (not the source) and exist only to be
compared against the source-derived definitions above. -/

/-- Spec's target date set for repetition expansion: `{date}` together with
    `{date + 7*repetition_rate*k : k = 1..repetition_count}` when both
    repetition fields are set (non-NULL), else just `{date}`. -/
def specTargetDates (self : Schedule) : List Int :=
  match self.repetition_rate, self.repetition_count with
  | some rate, some count =>
    self.date :: (List.range' 1 count).map
      (fun (k : Nat) => self.date + 7 * (rate : Int) * (k : Int))
  | _, _ => [self.date]

/-- Spec's collision condition: some resolved target week contains an
    existing same-author Schedule with the candidate's weekday that is not
    the record being edited, the edited record identified by primary key
    (`edited = none` for a create flow, where no record is being edited). -/
def specCollision (self : Schedule) (edited : Option Nat)
    (schedules : List Schedule) (weeks : List Week) : Bool :=
  (ScheduleMixin.get_related_week_objects self weeks).any (fun wo =>
    schedules.any (fun s =>
      decide (s.author = self.author)
        && ScheduleMixin.weekFieldMatches s.week wo
        && decide (pyWeekday s.date = pyWeekday self.date)
        && !(edited == some s.id)))

/-- Spec's overlap relation on inclusive `[start, end]` intervals. -/
def specOverlap (a b : Interval) : Bool :=
  decide (a.start ≤ b.end_ ∧ b.start ≤ a.end_)

/-- Spec's "exactly one of the repetition fields is set" condition, field
    presence meaning a non-NULL value. -/
def specExactlyOneSet (self : Schedule) : Bool :=
  self.repetition_rate.isSome != self.repetition_count.isSome

/-! ## Concrete rows used by counterexamples and witnesses -/

/-- Week covering Monday 2024-01-01 .. Sunday 2024-01-07. -/
def weekJan2024 : Week := ⟨1, 738886, 738892⟩

/-- A persisted Schedule of author 1 on Monday 2024-01-01 in that week. -/
def monSchedule : Schedule := ⟨1, 738886, 1, some 1, none, none⟩

/-- A fresh candidate of the same author on the same Monday (create flow:
    its own row is not yet persisted). -/
def monDuplicate : Schedule := ⟨2, 738886, 1, none, none, none⟩

/-- A candidate Schedule whose repetition_count is set and repetition_rate
    is absent, with the count set to the integer 0. -/
def countZeroOnly : Schedule := ⟨1, 738886, 1, none, none, some 0⟩

end Schedulum

namespace Schedulum

/-! ## Theorems -/

/-- Helper: the two month-length messages differ. -/
theorem monthMsgs_ne : monthWeeksLenMsg ≠ monthCountWeeksMsg := by decide

/-- Helper: the two start-date messages differ. -/
theorem startMsgs_ne : pastMonthMsg ≠ invalidPastMsg := by decide

/-- Helper: the two boundary messages differ. -/
theorem boundaryMsgs_ne : existIntervalMsg startVerbose ≠ existIntervalMsg endVerbose := by
  decide

/-- C8: Month interval-length validation succeeds exactly when the
    inclusive day count is divisible by 7 with quotient 4 or 5, that is,
    exactly 28 or 35 days; every other length fails with one of the two
    WrongMonthLength errors. -/
theorem c8_month_length (m : Month) :
    (MonthMixin.validate_len_interval m = .ok () ↔
      (MonthMixin.get_true_diff m) % 7 = 0 ∧
        ((MonthMixin.get_true_diff m) / 7 = 4 ∨ (MonthMixin.get_true_diff m) / 7 = 5)) ∧
    (MonthMixin.validate_len_interval m = .ok () ↔
      MonthMixin.get_true_diff m = 28 ∨ MonthMixin.get_true_diff m = 35) ∧
    ((MonthMixin.validate_len_interval m = .error [monthWeeksLenMsg] ∨
      MonthMixin.validate_len_interval m = .error [monthCountWeeksMsg]) ↔
      ¬(MonthMixin.get_true_diff m = 28 ∨ MonthMixin.get_true_diff m = 35)) := by
  have hmsg := monthMsgs_ne
  simp only [MonthMixin.validate_len_interval]
  by_cases h1 : MonthMixin.get_true_diff m % 7 ≠ 0
  · rw [if_pos h1]
    exact ⟨iff_of_false (by simp) (by omega),
           iff_of_false (by simp) (by omega),
           iff_of_true (Or.inl rfl) (by omega)⟩
  · rw [if_neg h1]
    by_cases h2 : MonthMixin.get_true_diff m / 7 < 4 ∨ MonthMixin.get_true_diff m / 7 > 5
    · rw [if_pos h2]
      exact ⟨iff_of_false (by simp) (by omega),
             iff_of_false (by simp) (by omega),
             iff_of_true (Or.inr rfl) (by omega)⟩
    · rw [if_neg h2]
      exact ⟨iff_of_true rfl (by omega),
             iff_of_true rfl (by omega),
             iff_of_false (by simp) (by omega)⟩

/-- C9: the start-date validator rejects, in this order, dates strictly
    before the first day of the configured current month/year
    (PastDateRejected), then dates strictly inside either exclusive
    non-instructional window, and returns every other date unchanged. -/
theorem c9_correct_start (cfg : StartDateConfig) (date : Int) :
    (correct_start cfg date = .error [pastMonthMsg] ↔
      date < toOrdinal cfg.CURRENT_YEAR cfg.CURRENT_MONTH 1) ∧
    (correct_start cfg date = .error [invalidPastMsg] ↔
      ¬date < toOrdinal cfg.CURRENT_YEAR cfg.CURRENT_MONTH 1 ∧
      ((cfg.CURRENT_JULY < date ∧ date < cfg.CURRENT_AUGUST) ∨
       (cfg.NEXT_JULY < date ∧ date < cfg.NEXT_AUGUST))) ∧
    (correct_start cfg date = .ok date ↔
      ¬date < toOrdinal cfg.CURRENT_YEAR cfg.CURRENT_MONTH 1 ∧
      ¬((cfg.CURRENT_JULY < date ∧ date < cfg.CURRENT_AUGUST) ∨
        (cfg.NEXT_JULY < date ∧ date < cfg.NEXT_AUGUST))) := by
  have hmsg := startMsgs_ne
  simp only [correct_start]
  by_cases h1 : date < toOrdinal cfg.CURRENT_YEAR cfg.CURRENT_MONTH 1
  · rw [if_pos h1]
    exact ⟨iff_of_true rfl h1,
           iff_of_false (by simp [hmsg]) (by tauto),
           iff_of_false (by simp) (by tauto)⟩
  · rw [if_neg h1]
    by_cases h2 : (cfg.CURRENT_JULY < date ∧ date < cfg.CURRENT_AUGUST)
        ∨ (cfg.NEXT_JULY < date ∧ date < cfg.NEXT_AUGUST)
    · rw [if_pos h2]
      exact ⟨iff_of_false (by simp [Ne.symm hmsg]) h1,
             iff_of_true rfl ⟨h1, h2⟩,
             iff_of_false (by simp) (by tauto)⟩
    · rw [if_neg h2]
      exact ⟨iff_of_false (by simp) h1,
             iff_of_false (by simp) (by tauto),
             iff_of_true rfl ⟨h1, h2⟩⟩

/-- C4: the URL segment "2024-13-45" is well-formed for the route pattern
    but not a date; `strptime` raises a `ValueError` that `get_object` does
    not catch, so the request ends in an uncaught failure (the generic
    server fault), not a not-found/bad-request condition. -/
theorem c4_malformed_date_uncaught (user : Nat) (schedules : List Schedule) :
    get_object "2024-13-45" user schedules = .uncaughtValueError := by
  have h : pyStrptimeYMD "2024-13-45" = none := by decide
  unfold get_object
  rw [h]

/-- C10: repetition values equal to 0 are treated as absent: a Schedule
    with both repetition fields set to 0 passes the completeness check and
    its week resolution performs no expansion, resolving only the base
    date's week. -/
theorem c10_zero_repetition_treated_absent (id : Nat) (date : Int)
    (author : Nat) (week : Option Nat) (weeks : List Week) :
    ScheduleMixin.validate_empty_repetition ⟨id, date, author, week, some 0, some 0⟩ = .ok () ∧
    ScheduleMixin.get_related_week_objects ⟨id, date, author, week, some 0, some 0⟩ weeks =
      [ScheduleMixin.get_related_obj weeks date] := by
  exact ⟨rfl, rfl⟩

/-- C1 counterexample: author 1 already has a persisted Monday schedule in
    the base week, and a fresh record of the same author on that very
    Monday is being created, so no record is being edited; the collision
    condition as the claim states it holds, yet the check passes, because
    the code excludes the first stored row with the candidate's
    `(date, author)` rather than the record being edited. -/
theorem c1_counterexample :
    specCollision monDuplicate none [monSchedule] [weekJan2024] = true ∧
    ScheduleMixin.validate_exist_schedule monDuplicate [monSchedule] [weekJan2024] =
      .ok () := by
  decide

/-- C3 counterexample: a candidate Month interval [1, 31] strictly contains
    the persisted sibling [10, 20]; the inclusive intervals overlap, yet
    the overlap check passes, because only the candidate's own boundaries
    are probed against sibling interiors. -/
theorem c3_counterexample :
    validate_exist_interval ⟨1, 31⟩ [⟨10, 20⟩] = .ok () ∧
    specOverlap ⟨1, 31⟩ ⟨10, 20⟩ = true := by
  decide

/-- C5 counterexample: a Schedule whose repetition_count is set (to 0)
    while repetition_rate is absent has exactly one repetition field set,
    yet the completeness check passes, because the code tests value
    truthiness and 0 is falsy. -/
theorem c5_counterexample :
    ScheduleMixin.validate_empty_repetition countZeroOnly = .ok () ∧
    specExactlyOneSet countZeroOnly = true := by
  decide

/-- C5 amended: the repetition completeness check fails exactly when one of
    the two repetition fields is truthy (present and nonzero) and the other
    is not; field values of 0 count as absent. -/
theorem c5_incomplete_repetition_iff (self : Schedule) :
    ScheduleMixin.validate_empty_repetition self = .error [emptyRepetitionMsg] ↔
      ScheduleMixin.truthy self.repetition_rate ≠
        ScheduleMixin.truthy self.repetition_count := by
  rcases hr : self.repetition_rate with _ | r
  · rcases hc : self.repetition_count with _ | c
    · simp [ScheduleMixin.validate_empty_repetition, ScheduleMixin.truthy, hr, hc]
    · by_cases hc0 : c = 0 <;>
        simp [ScheduleMixin.validate_empty_repetition, ScheduleMixin.truthy,
          hr, hc, hc0]
  · rcases hc : self.repetition_count with _ | c
    · by_cases hr0 : r = 0 <;>
        simp [ScheduleMixin.validate_empty_repetition, ScheduleMixin.truthy,
          hr, hc, hr0]
    · by_cases hr0 : r = 0 <;> by_cases hc0 : c = 0
      · simp [ScheduleMixin.validate_empty_repetition, ScheduleMixin.truthy,
          hr, hc, hr0, hc0]
      · simp [ScheduleMixin.validate_empty_repetition, ScheduleMixin.truthy,
          hr, hc, hr0, hc0]
      · simp [ScheduleMixin.validate_empty_repetition, ScheduleMixin.truthy,
          hr, hc, hr0, hc0]
      · have h1 : (r != 0) = true := by simpa using hr0
        have h2 : (c != 0) = true := by simpa using hc0
        simp [ScheduleMixin.validate_empty_repetition, ScheduleMixin.truthy,
          hr, hc, h1, h2]

/-- C7: the hierarchy resolver locates a Month's Year as the Year row whose
    `year` is the calendar year of the Month's midpoint (`start + 15`
    days), and a Week's Month as a Month row whose inclusive interval
    contains the Week's `start`; each validator fails, naming the expected
    parent type, exactly when no such parent row exists. -/
theorem c7_hierarchy_resolver (m : Month) (years : List Year)
    (w : Week) (months : List Month) :
    (MonthMixin.validate_related_obj m years = .error [errorHigherObj yearVerbose] ↔
      ∀ y ∈ years, y.year ≠ yearOf (m.start + 15)) ∧
    (MonthMixin.validate_related_obj m years = .ok () ↔
      ∃ y ∈ years, y.year = yearOf (m.start + 15)) ∧
    (WeekMixin.validate_related_obj w months = .error [errorHigherObj monthVerbose] ↔
      ∀ mo ∈ months, ¬(mo.start ≤ w.start ∧ w.start ≤ mo.end_)) ∧
    (WeekMixin.validate_related_obj w months = .ok () ↔
      ∃ mo ∈ months, mo.start ≤ w.start ∧ w.start ≤ mo.end_) := by
  have hm : ∀ x : Month, MonthMixin.get_average_date x = x.start + 15 := fun _ => rfl
  refine ⟨?_, ?_, ?_, ?_⟩
  · simp only [MonthMixin.validate_related_obj]
    rcases hf : MonthMixin.get_related_obj m years with _ | y
    · simp only [MonthMixin.get_related_obj, List.find?_eq_none, hm,
        decide_eq_true_eq] at hf
      exact iff_of_true rfl hf
    · refine iff_of_false (by simp) ?_
      have hy := List.find?_some hf
      have hmem := List.mem_of_find?_eq_some hf
      rw [hm, decide_eq_true_eq] at hy
      exact fun hall => hall y hmem hy
  · simp only [MonthMixin.validate_related_obj]
    rcases hf : MonthMixin.get_related_obj m years with _ | y
    · refine iff_of_false (by simp) ?_
      simp only [MonthMixin.get_related_obj, List.find?_eq_none, hm,
        decide_eq_true_eq] at hf
      rintro ⟨y, hy, hEq⟩
      exact hf y hy hEq
    · have hy := List.find?_some hf
      have hmem := List.mem_of_find?_eq_some hf
      rw [hm, decide_eq_true_eq] at hy
      exact iff_of_true rfl ⟨y, hmem, hy⟩
  · simp only [WeekMixin.validate_related_obj]
    rcases hf : WeekMixin.get_related_obj w months with _ | mo
    · simp only [WeekMixin.get_related_obj, List.find?_eq_none,
        decide_eq_true_eq] at hf
      exact iff_of_true rfl hf
    · refine iff_of_false (by simp) ?_
      have hy := List.find?_some hf
      have hmem := List.mem_of_find?_eq_some hf
      rw [decide_eq_true_eq] at hy
      exact fun hall => hall mo hmem hy
  · simp only [WeekMixin.validate_related_obj]
    rcases hf : WeekMixin.get_related_obj w months with _ | mo
    · refine iff_of_false (by simp) ?_
      simp only [WeekMixin.get_related_obj, List.find?_eq_none,
        decide_eq_true_eq] at hf
      rintro ⟨mo, hmo, hIn⟩
      exact hf mo hmo hIn
    · have hy := List.find?_some hf
      have hmem := List.mem_of_find?_eq_some hf
      rw [decide_eq_true_eq] at hy
      exact iff_of_true rfl ⟨mo, hmem, hy⟩

/-- C6: re-running the conflict check on an already-persisted,
    non-colliding Schedule with unchanged date and store raises no error;
    the author's stored row with the candidate's date is the row the check
    excludes. The check is a pure function of the record and the store, so
    a second run returns the same no-error result. -/
theorem c6_idempotent_revalidation (self : Schedule) (schedules : List Schedule)
    (weeks : List Week)
    (hfind : schedules.find?
      (fun t => decide (t.date = self.date ∧ t.author = self.author)) = some self)
    (hnc : ∀ s ∈ schedules, s.author = self.author →
      pyWeekday s.date = pyWeekday self.date →
      (∃ wo ∈ ScheduleMixin.get_related_week_objects self weeks,
        ScheduleMixin.weekFieldMatches s.week wo = true) →
      s.id = self.id) :
    ScheduleMixin.validate_exist_schedule self schedules weeks = .ok () := by
  simp only [ScheduleMixin.validate_exist_schedule, hfind]
  rw [if_neg]
  intro hany
  rw [List.any_eq_true] at hany
  obtain ⟨wo, hwo, hinner⟩ := hany
  rw [List.any_eq_true] at hinner
  obtain ⟨s, hs, hcond⟩ := hinner
  rw [List.mem_filter, Bool.and_eq_true, decide_eq_true_eq] at hs
  obtain ⟨hsmem, hauth, hweek⟩ := hs
  rw [Bool.and_eq_true, decide_eq_true_eq, Bool.not_eq_true'] at hcond
  obtain ⟨hwd, hpk⟩ := hcond
  have hid := hnc s hsmem hauth hwd ⟨wo, hwo, hweek⟩
  simp only [ScheduleMixin.eqByPk, hid, beq_self_eq_true] at hpk
  exact Bool.noConfusion hpk

/-- Witness for C6 at a concrete store: the persisted Monday schedule of
    author 1 revalidates without error against a store holding only
    itself. -/
theorem c6_idempotent_revalidation_witness :
    ScheduleMixin.validate_exist_schedule monSchedule [monSchedule] [weekJan2024] =
      .ok () := by
  apply c6_idempotent_revalidation
  · decide
  · decide

/-- C1 amended: the conflict check fails with ScheduleCollision exactly
    when some resolved target week contains a same-author Schedule with the
    candidate's weekday that differs, by primary key, from the first stored
    Schedule carrying the candidate's exact `(date, author)` pair; the
    excluded row is found by that `(date, author)` lookup, not by the
    edited record's own primary key. A different author's row never has
    `s.author = self.author`, so it never triggers the error. -/
theorem c1_collision_characterisation (self : Schedule)
    (schedules : List Schedule) (weeks : List Week) :
    ScheduleMixin.validate_exist_schedule self schedules weeks =
        .error [scheduleCollisionMsg] ↔
      ∃ wo ∈ ScheduleMixin.get_related_week_objects self weeks,
        ∃ s ∈ schedules, s.author = self.author ∧
          ScheduleMixin.weekFieldMatches s.week wo = true ∧
          pyWeekday s.date = pyWeekday self.date ∧
          ScheduleMixin.eqByPk s (schedules.find?
            (fun t => decide (t.date = self.date ∧ t.author = self.author))) = false := by
  simp only [ScheduleMixin.validate_exist_schedule]
  split_ifs with h
  · refine iff_of_true rfl ?_
    rw [List.any_eq_true] at h
    obtain ⟨wo, hwo, hin⟩ := h
    rw [List.any_eq_true] at hin
    obtain ⟨s, hs, hcond⟩ := hin
    rw [List.mem_filter, Bool.and_eq_true, decide_eq_true_eq] at hs
    rw [Bool.and_eq_true, decide_eq_true_eq, Bool.not_eq_true'] at hcond
    exact ⟨wo, hwo, s, hs.1, hs.2.1, hs.2.2, hcond.1, hcond.2⟩
  · refine iff_of_false (by simp) ?_
    rintro ⟨wo, hwo, s, hsmem, hauth, hweek, hwd, hpk⟩
    apply h
    rw [List.any_eq_true]
    refine ⟨wo, hwo, ?_⟩
    rw [List.any_eq_true]
    refine ⟨s, ?_, ?_⟩
    · rw [List.mem_filter, Bool.and_eq_true, decide_eq_true_eq]
      exact ⟨hsmem, hauth, hweek⟩
    · rw [Bool.and_eq_true, decide_eq_true_eq, Bool.not_eq_true']
      exact ⟨hwd, hpk⟩

/-- Helper: the resolved week lookups of a candidate coincide, as a set,
    with the week lookups of the spec's target date set. -/
theorem mem_related_week_objects_iff (self : Schedule) (weeks : List Week)
    (w : Option Week) :
    w ∈ ScheduleMixin.get_related_week_objects self weeks ↔
      w ∈ (specTargetDates self).map (ScheduleMixin.get_related_obj weeks) := by
  rcases hr : self.repetition_rate with _ | rate
  · simp [ScheduleMixin.get_related_week_objects, specTargetDates,
      ScheduleMixin.truthy, hr]
  · rcases hc : self.repetition_count with _ | count
    · simp [ScheduleMixin.get_related_week_objects, specTargetDates,
        ScheduleMixin.truthy, hr, hc]
    · by_cases hr0 : rate = 0
      · subst hr0
        have hcode : ScheduleMixin.get_related_week_objects self weeks =
            [ScheduleMixin.get_related_obj weeks self.date] := by
          simp [ScheduleMixin.get_related_week_objects, ScheduleMixin.truthy, hr]
        have hspec : (specTargetDates self).map (ScheduleMixin.get_related_obj weeks) =
            ScheduleMixin.get_related_obj weeks self.date ::
              (List.range' 1 count).map
                (fun _ => ScheduleMixin.get_related_obj weeks self.date) := by
          simp only [specTargetDates, hr, hc, List.map_cons, List.map_map]
          refine congrArg _ (List.map_congr_left ?_)
          intro k hk
          simp only [Function.comp_apply]
          norm_num
        rw [hcode, hspec]
        simp only [List.mem_singleton, List.mem_cons, List.mem_map,
          List.not_mem_nil, or_false]
        constructor
        · intro hw
          exact Or.inl hw
        · rintro (hw | ⟨k, hk, hw⟩)
          · exact hw
          · exact hw.symm
      · by_cases hc0 : count = 0
        · subst hc0
          simp [ScheduleMixin.get_related_week_objects, specTargetDates,
            ScheduleMixin.truthy, hr, hc]
        · have h1 : (rate != 0) = true := by simpa using hr0
          have h2 : (count != 0) = true := by simpa using hc0
          have hcode : ScheduleMixin.get_related_week_objects self weeks =
              (List.range' 1 count).map (fun (k : Nat) =>
                ScheduleMixin.get_related_obj weeks
                  (self.date + 7 * (rate : Int) * (k : Int)))
                ++ [ScheduleMixin.get_related_obj weeks self.date] := by
            simp [ScheduleMixin.get_related_week_objects, ScheduleMixin.truthy,
              hr, hc, h1, h2]
          have hspec : (specTargetDates self).map (ScheduleMixin.get_related_obj weeks) =
              ScheduleMixin.get_related_obj weeks self.date ::
                (List.range' 1 count).map (fun (k : Nat) =>
                  ScheduleMixin.get_related_obj weeks
                    (self.date + 7 * (rate : Int) * (k : Int))) := by
            simp only [specTargetDates, hr, hc, List.map_cons, List.map_map]
            rfl
          rw [hcode, hspec]
          simp only [List.mem_append, List.mem_singleton, List.mem_cons,
            List.not_mem_nil, or_false]
          exact or_comm

/-- C2: the resolved target weeks are exactly the enclosing-week lookups of
    the spec's target date set (base date plus `date + 7*rate*k` for
    `k = 1..count` when both repetition fields are set), and the existence
    check fails with NoSuchWeek exactly when some target date has no
    enclosing Week in the store. -/
theorem c2_repetition_week_resolution (self : Schedule) (weeks : List Week) :
    (∀ w : Option Week, w ∈ ScheduleMixin.get_related_week_objects self weeks ↔
        w ∈ (specTargetDates self).map (ScheduleMixin.get_related_obj weeks)) ∧
    (ScheduleMixin.validate_exist_weeks self weeks = .error [notExistWeeksMsg] ↔
        ∃ d ∈ specTargetDates self, ¬∃ wk ∈ weeks, wk.start ≤ d ∧ d ≤ wk.end_) ∧
    (ScheduleMixin.validate_exist_weeks self weeks = .ok () ↔
        ∀ d ∈ specTargetDates self, ∃ wk ∈ weeks, wk.start ≤ d ∧ d ≤ wk.end_) := by
  have hmem := mem_related_week_objects_iff self weeks
  have hnone : (none ∈ ScheduleMixin.get_related_week_objects self weeks) ↔
      ∃ d ∈ specTargetDates self, ¬∃ wk ∈ weeks, wk.start ≤ d ∧ d ≤ wk.end_ := by
    rw [hmem none, List.mem_map]
    constructor
    · rintro ⟨d, hd, hfd⟩
      refine ⟨d, hd, ?_⟩
      rintro ⟨wk, hwk, hc⟩
      have hno := List.find?_eq_none.mp hfd wk hwk
      rw [decide_eq_true_eq] at hno
      exact hno hc
    · rintro ⟨d, hd, hno⟩
      refine ⟨d, hd, ?_⟩
      simp only [ScheduleMixin.get_related_obj]
      rw [List.find?_eq_none]
      intro wk hwk
      rw [decide_eq_true_eq]
      intro hc
      exact hno ⟨wk, hwk, hc⟩
  refine ⟨hmem, ?_, ?_⟩
  · simp only [ScheduleMixin.validate_exist_weeks]
    split_ifs with h
    · exact iff_of_true rfl (hnone.mp h)
    · exact iff_of_false (by simp) (fun hx => h (hnone.mpr hx))
  · simp only [ScheduleMixin.validate_exist_weeks]
    split_ifs with h
    · refine iff_of_false (by simp) ?_
      obtain ⟨d, hd, hno⟩ := hnone.mp h
      intro hall
      exact hno (hall d hd)
    · refine iff_of_true rfl ?_
      intro d hd
      by_contra hno
      exact h (hnone.mpr ⟨d, hd, hno⟩)

/-- C3 amended: the sibling-interval check fails exactly when some existing
    sibling's open interval strictly contains the candidate's start or
    strictly contains the candidate's end, and the error names exactly the
    boundaries that fell inside a sibling, start first; overlaps that leave
    both candidate boundaries outside every sibling's open interval (for
    example a candidate strictly containing a sibling, or one with the same
    boundaries) pass. -/
theorem c3_boundary_overlap_characterisation (self : Interval)
    (siblings : List Interval) :
    (validate_exist_interval self siblings = .ok () ↔
      ¬(∃ o ∈ siblings, o.start < self.start ∧ self.start < o.end_) ∧
      ¬(∃ o ∈ siblings, o.start < self.end_ ∧ self.end_ < o.end_)) ∧
    (validate_exist_interval self siblings =
        .error [existIntervalMsg startVerbose, existIntervalMsg endVerbose] ↔
      (∃ o ∈ siblings, o.start < self.start ∧ self.start < o.end_) ∧
      (∃ o ∈ siblings, o.start < self.end_ ∧ self.end_ < o.end_)) ∧
    (validate_exist_interval self siblings = .error [existIntervalMsg startVerbose] ↔
      (∃ o ∈ siblings, o.start < self.start ∧ self.start < o.end_) ∧
      ¬(∃ o ∈ siblings, o.start < self.end_ ∧ self.end_ < o.end_)) ∧
    (validate_exist_interval self siblings = .error [existIntervalMsg endVerbose] ↔
      ¬(∃ o ∈ siblings, o.start < self.start ∧ self.start < o.end_) ∧
      (∃ o ∈ siblings, o.start < self.end_ ∧ self.end_ < o.end_)) := by
  have hbm := boundaryMsgs_ne
  have hs : (siblings.find?
      (fun o => decide (o.start < self.start ∧ self.start < o.end_))).isSome = true ↔
      ∃ o ∈ siblings, o.start < self.start ∧ self.start < o.end_ := by
    rw [List.find?_isSome]
    simp only [decide_eq_true_eq]
  have he : (siblings.find?
      (fun o => decide (o.start < self.end_ ∧ self.end_ < o.end_))).isSome = true ↔
      ∃ o ∈ siblings, o.start < self.end_ ∧ self.end_ < o.end_ := by
    rw [List.find?_isSome]
    simp only [decide_eq_true_eq]
  simp only [validate_exist_interval]
  by_cases h1 : (siblings.find?
      (fun o => decide (o.start < self.start ∧ self.start < o.end_))).isSome = true
  · by_cases h2 : (siblings.find?
        (fun o => decide (o.start < self.end_ ∧ self.end_ < o.end_))).isSome = true
    · rw [if_pos (Or.inl h1), if_pos h1, if_pos h2]
      exact ⟨iff_of_false (by simp) (fun hx => hx.1 (hs.mp h1)),
             iff_of_true rfl ⟨hs.mp h1, he.mp h2⟩,
             iff_of_false (by simp) (fun hx => hx.2 (he.mp h2)),
             iff_of_false (by simp) (fun hx => hx.1 (hs.mp h1))⟩
    · rw [if_pos (Or.inl h1), if_pos h1, if_neg h2]
      exact ⟨iff_of_false (by simp) (fun hx => hx.1 (hs.mp h1)),
             iff_of_false (by simp) (fun hx => h2 (he.mpr hx.2)),
             iff_of_true rfl ⟨hs.mp h1, fun hx => h2 (he.mpr hx)⟩,
             iff_of_false (by simp [hbm]) (fun hx => hx.1 (hs.mp h1))⟩
  · by_cases h2 : (siblings.find?
        (fun o => decide (o.start < self.end_ ∧ self.end_ < o.end_))).isSome = true
    · rw [if_pos (Or.inr h2), if_neg h1, if_pos h2]
      exact ⟨iff_of_false (by simp) (fun hx => hx.2 (he.mp h2)),
             iff_of_false (by simp) (fun hx => h1 (hs.mpr hx.1)),
             iff_of_false (by simp [Ne.symm hbm]) (fun hx => h1 (hs.mpr hx.1)),
             iff_of_true rfl ⟨fun hx => h1 (hs.mpr hx), he.mp h2⟩⟩
    · rw [if_neg (not_or.mpr ⟨h1, h2⟩)]
      exact ⟨iff_of_true rfl ⟨fun hx => h1 (hs.mpr hx), fun hx => h2 (he.mpr hx)⟩,
             iff_of_false (by simp) (fun hx => h1 (hs.mpr hx.1)),
             iff_of_false (by simp) (fun hx => h1 (hs.mpr hx.1)),
             iff_of_false (by simp) (fun hx => h2 (he.mpr hx.2))⟩

end Schedulum
